import Mathlib

/-!
Verification of the monzo-demo transaction pipeline and categorizer.

The categorizer is embedded from `src/categorizer/main.go`
(`categorizeTransaction`); strings are modelled as lists of characters,
Go's `strings.ToLower` as ASCII lowercasing (all keywords are ASCII), and
`strings.Contains` as substring search on character lists.  The Go
`float64` amount is modelled as an exact rational; all comparisons in the
code are order comparisons against integer constants, which rationals
model faithfully.
-/

/-- Convert a string literal to the character-list representation used
throughout the embedding. -/
def str (s : String) : List Char := s.toList

/-- Lowercase one string, character by character, as Go's
`strings.ToLower` does on the ASCII inputs the keyword rules consult. -/
def toLowerStr (s : List Char) : List Char := s.map Char.toLower

/-- Decide whether `p` is a prefix of `s`. -/
def isPre : List Char → List Char → Bool
  | [], _ => true
  | _ :: _, [] => false
  | p :: ps, c :: cs => p == c && isPre ps cs

/-- Decide whether `pat` occurs as a contiguous substring of `s`,
mirroring Go's `strings.Contains s pat`. -/
def containsSub : List Char → List Char → Bool
  | [], pat => isPre pat []
  | c :: rest, pat => isPre pat (c :: rest) || containsSub rest pat

/-- One keyword loop of `categorizeTransaction`: scan the lowercased
merchant and description against a keyword set; a match on either field
suffices. -/
def anyKeyword (m d : List Char) (kws : List (List Char)) : Bool :=
  kws.any (fun k => containsSub m k || containsSub d k)

/-- Income keyword set of `src/categorizer/main.go` line 32. -/
def incomeKeywords : List (List Char) :=
  [str "salary", str "deposit", str "income", str "gift"]

/-- Transport keyword set of `src/categorizer/main.go` line 40. -/
def transportKeywords : List (List Char) :=
  [str "uber", str "lyft", str "taxi", str "transport", str "tfl",
   str "bus", str "train", str "metro", str "subway"]

/-- Food & Drink keyword set of `src/categorizer/main.go` line 48. -/
def foodKeywords : List (List Char) :=
  [str "starbucks", str "costa", str "cafe", str "restaurant",
   str "mcdonalds", str "kfc", str "pizza", str "food", str "coffee",
   str "tea"]

/-- Shopping keyword set of `src/categorizer/main.go` line 56. -/
def shoppingKeywords : List (List Char) :=
  [str "amazon", str "ebay", str "shop", str "store", str "retail",
   str "market", str "mall", str "clothing", str "fashion"]

/-- Groceries keyword set of `src/categorizer/main.go` line 64. -/
def groceryKeywords : List (List Char) :=
  [str "tesco", str "sainsbury", str "asda", str "morrisons",
   str "waitrose", str "aldi", str "lidl", str "grocery",
   str "supermarket"]

/-- Entertainment keyword set of `src/categorizer/main.go` line 72. -/
def entertainmentKeywords : List (List Char) :=
  [str "cinema", str "movie", str "netflix", str "spotify",
   str "apple music", str "game", str "entertainment", str "theatre"]

/-- Bills & Utilities keyword set of `src/categorizer/main.go` line 80. -/
def billsKeywords : List (List Char) :=
  [str "electric", str "gas", str "water", str "internet", str "phone",
   str "insurance", str "council tax", str "utility", str "energy"]

/-- The rule ladder of `categorizeTransaction`, with the large-amount
threshold as a parameter: `src/categorizer/main.go` hardcodes 700 and the
variant in `src/unnamed/part_007` hardcodes 500, so the threshold is kept
configurable, each source file instantiating it. -/
def categorizeTransactionT (largeThreshold : Rat)
    (merchant description : List Char) (amount : Rat)
    (transactionType : List Char) : List Char :=
  if toLowerStr transactionType = str "credit" then str "Income"
  else if anyKeyword (toLowerStr merchant) (toLowerStr description)
      incomeKeywords then str "Income"
  else if anyKeyword (toLowerStr merchant) (toLowerStr description)
      transportKeywords then str "Transport"
  else if anyKeyword (toLowerStr merchant) (toLowerStr description)
      foodKeywords then str "Food & Drink"
  else if anyKeyword (toLowerStr merchant) (toLowerStr description)
      shoppingKeywords then str "Shopping"
  else if anyKeyword (toLowerStr merchant) (toLowerStr description)
      groceryKeywords then str "Groceries"
  else if anyKeyword (toLowerStr merchant) (toLowerStr description)
      entertainmentKeywords then str "Entertainment"
  else if anyKeyword (toLowerStr merchant) (toLowerStr description)
      billsKeywords then str "Bills & Utilities"
  else if containsSub (toLowerStr merchant) (str "atm")
       || containsSub (toLowerStr merchant) (str "cash") then str "ATM"
  else if largeThreshold < amount then
    if containsSub (toLowerStr description) (str "salary")
       || containsSub (toLowerStr description) (str "wages") then str "Income"
    else if containsSub (toLowerStr description) (str "rent")
       || containsSub (toLowerStr description) (str "mortgage") then
      str "Housing"
    else str "Other"
  else str "Other"

/-- `categorizeTransaction` of `src/categorizer/main.go`, whose
large-amount threshold is 700. -/
def categorizeTransaction (merchant description : List Char) (amount : Rat)
    (transactionType : List Char) : List Char :=
  categorizeTransactionT 700 merchant description amount transactionType

/-- Modelled from the spec: the transaction type of §3, debit or credit
(the FastAPI backend holding the pipeline is not in the source tree, so
the pipeline side is reconstructed from §4.1 and §4.3). -/
inductive TxType where
  | debit
  | credit
deriving DecidableEq

/-- Modelled from the spec: a TopUpRule of §3 — threshold, topup amount
and enabled flag, listed per account in creation order. -/
structure TopUpRule where
  threshold : Rat
  topupAmount : Rat
  enabled : Bool
deriving DecidableEq

/-- Modelled from the spec: a TopUpEvent of §3 — the amount credited and
the triggered balance, i.e. the balance observed at evaluation time,
before the credit. -/
structure TopUpEvent where
  amount : Rat
  triggeredBalance : Rat
deriving DecidableEq

/-- Modelled from the spec: the §7 error relevant to the pipeline's pure
control flow; account lookup is resolved by the caller handing the
account's balance to `submit`. -/
inductive PipelineError where
  | validationError
deriving DecidableEq

/-- Modelled from the spec: §4.1 step 3 — a debit decreases the balance
by the amount, a credit increases it. -/
def applyDelta (balance : Rat) (ty : TxType) (amount : Rat) : Rat :=
  match ty with
  | .debit => balance - amount
  | .credit => balance + amount

/-- Modelled from the spec: the signed contribution of one applied
transaction to the balance. -/
def signedDelta (ty : TxType) (amount : Rat) : Rat :=
  match ty with
  | .debit => -amount
  | .credit => amount

/-- Modelled from the spec: the TopUp Evaluator of §4.3.  Rules are
walked in creation order; an enabled rule fires when the running balance
is strictly below its threshold, credits its topup amount, records a
TopUpEvent carrying the balance observed before the credit, and the
remaining rules are checked against the updated balance. -/
def evaluateTopUps : List TopUpRule → Rat → Rat × List TopUpEvent
  | [], balance => (balance, [])
  | r :: rest, balance =>
    if r.enabled = true ∧ balance < r.threshold then
      ((evaluateTopUps rest (balance + r.topupAmount)).1,
       ⟨r.topupAmount, balance⟩ ::
         (evaluateTopUps rest (balance + r.topupAmount)).2)
    else evaluateTopUps rest balance

/-- Modelled from the spec: the Transaction Pipeline `submit` of §4.1, as
a pure function of the account's serialized state.  Validation precedes
any effect; the categorizer's answer is an `Option`, with `none` standing
for a failed or timed-out call and falling back to "Other"; the result
carries the post-topup balance, the resolved category, and the topup
events of this evaluation pass. -/
def submit (balance amount : Rat) (merchant : List Char) (ty : TxType)
    (classifierResult : Option (List Char)) (rules : List TopUpRule) :
    Except PipelineError (Rat × List Char × List TopUpEvent) :=
  if amount ≤ 0 then .error .validationError
  else if merchant = [] then .error .validationError
  else
    .ok ((evaluateTopUps rules (applyDelta balance ty amount)).1,
         classifierResult.getD (str "Other"),
         (evaluateTopUps rules (applyDelta balance ty amount)).2)

/-- Modelled from the spec: one pipeline request — amount, merchant, type
and the categorizer call's outcome for this request. -/
structure TxReq where
  amount : Rat
  merchant : List Char
  ty : TxType
  classifier : Option (List Char)

/-- Modelled from the spec: run the pipeline over a request sequence on
one account, collecting the applied transaction deltas and the recorded
topup events; a request failing validation leaves no trace, per §4.1
step 1. -/
def runPipeline (rules : List TopUpRule) :
    Rat → List TxReq → Rat × List (TxType × Rat) × List TopUpEvent
  | balance, [] => (balance, [], [])
  | balance, req :: rest =>
    match submit balance req.amount req.merchant req.ty req.classifier
        rules with
    | .error _ => runPipeline rules balance rest
    | .ok res =>
      ((runPipeline rules res.1 rest).1,
       (req.ty, req.amount) :: (runPipeline rules res.1 rest).2.1,
       res.2.2 ++ (runPipeline rules res.1 rest).2.2)

/-- Step lemma: a type that lowercases to "credit" short-circuits the
ladder at its first rule. -/
theorem catT_credit (T : Rat) (m d : List Char) (a : Rat) (t : List Char)
    (h : toLowerStr t = str "credit") :
    categorizeTransactionT T m d a t = str "Income" := by
  unfold categorizeTransactionT
  rw [if_pos h]

/-- Step lemma: past the credit rule, an income-keyword match answers
"Income". -/
theorem catT_income (T : Rat) (m d : List Char) (a : Rat) (t : List Char)
    (hc : toLowerStr t ≠ str "credit")
    (hi : anyKeyword (toLowerStr m) (toLowerStr d) incomeKeywords = true) :
    categorizeTransactionT T m d a t = str "Income" := by
  unfold categorizeTransactionT
  rw [if_neg hc, if_pos hi]

/-- Step lemma: past the credit and income rules, a transport-keyword
match answers "Transport". -/
theorem catT_transport (T : Rat) (m d : List Char) (a : Rat) (t : List Char)
    (hc : toLowerStr t ≠ str "credit")
    (hi : anyKeyword (toLowerStr m) (toLowerStr d) incomeKeywords = false)
    (ht : anyKeyword (toLowerStr m) (toLowerStr d) transportKeywords = true) :
    categorizeTransactionT T m d a t = str "Transport" := by
  unfold categorizeTransactionT
  rw [if_neg hc, if_neg (ne_true_of_eq_false hi), if_pos ht]

/-- Step lemma: when the credit rule and all seven keyword loops decline,
the ladder reduces to its ATM check and large-amount heuristic. -/
theorem catT_after_keywords (T : Rat) (m d : List Char) (a : Rat)
    (t : List Char)
    (hc : toLowerStr t ≠ str "credit")
    (hi : anyKeyword (toLowerStr m) (toLowerStr d) incomeKeywords = false)
    (ht : anyKeyword (toLowerStr m) (toLowerStr d) transportKeywords = false)
    (hf : anyKeyword (toLowerStr m) (toLowerStr d) foodKeywords = false)
    (hs : anyKeyword (toLowerStr m) (toLowerStr d) shoppingKeywords = false)
    (hg : anyKeyword (toLowerStr m) (toLowerStr d) groceryKeywords = false)
    (he : anyKeyword (toLowerStr m) (toLowerStr d) entertainmentKeywords
        = false)
    (hb : anyKeyword (toLowerStr m) (toLowerStr d) billsKeywords = false) :
    categorizeTransactionT T m d a t =
      (if containsSub (toLowerStr m) (str "atm")
          || containsSub (toLowerStr m) (str "cash") then str "ATM"
       else if T < a then
         if containsSub (toLowerStr d) (str "salary")
            || containsSub (toLowerStr d) (str "wages") then str "Income"
         else if containsSub (toLowerStr d) (str "rent")
            || containsSub (toLowerStr d) (str "mortgage") then str "Housing"
         else str "Other"
       else str "Other") := by
  unfold categorizeTransactionT
  rw [if_neg hc, if_neg (ne_true_of_eq_false hi),
    if_neg (ne_true_of_eq_false ht), if_neg (ne_true_of_eq_false hf),
    if_neg (ne_true_of_eq_false hs), if_neg (ne_true_of_eq_false hg),
    if_neg (ne_true_of_eq_false he), if_neg (ne_true_of_eq_false hb)]

/-- C1: a transaction whose type is the literal "credit" is categorized
"Income" whatever the merchant, description and amount are. -/
theorem credit_always_income (m d : List Char) (a : Rat) :
    categorizeTransaction m d a (str "credit") = str "Income" := rfl

/-- C9: the categorizer is total and always answers one of exactly ten
labels. -/
theorem categorizer_ten_labels (m d : List Char) (a : Rat) (t : List Char) :
    categorizeTransaction m d a t ∈
      [str "Income", str "Transport", str "Food & Drink", str "Shopping",
       str "Groceries", str "Entertainment", str "Bills & Utilities",
       str "ATM", str "Housing", str "Other"] := by
  unfold categorizeTransaction
  by_cases hc : toLowerStr t = str "credit"
  · rw [catT_credit 700 m d a t hc]
    exact List.Mem.head _
  by_cases hi : anyKeyword (toLowerStr m) (toLowerStr d) incomeKeywords = true
  swap
  replace hi : anyKeyword (toLowerStr m) (toLowerStr d) incomeKeywords = false :=
    Bool.eq_false_iff.mpr hi
  swap
  · rw [catT_income 700 m d a t hc hi]
    exact List.Mem.head _
  by_cases ht : anyKeyword (toLowerStr m) (toLowerStr d) transportKeywords = true
  swap
  replace ht : anyKeyword (toLowerStr m) (toLowerStr d) transportKeywords = false :=
    Bool.eq_false_iff.mpr ht
  swap
  · rw [catT_transport 700 m d a t hc hi ht]
    repeat first | exact List.Mem.head _ | apply List.Mem.tail
  by_cases hf : anyKeyword (toLowerStr m) (toLowerStr d) foodKeywords = true
  swap
  replace hf : anyKeyword (toLowerStr m) (toLowerStr d) foodKeywords = false :=
    Bool.eq_false_iff.mpr hf
  swap
  · unfold categorizeTransactionT
    rw [if_neg hc, if_neg (ne_true_of_eq_false hi),
      if_neg (ne_true_of_eq_false ht), if_pos hf]
    repeat first | exact List.Mem.head _ | apply List.Mem.tail
  by_cases hs : anyKeyword (toLowerStr m) (toLowerStr d) shoppingKeywords = true
  swap
  replace hs : anyKeyword (toLowerStr m) (toLowerStr d) shoppingKeywords = false :=
    Bool.eq_false_iff.mpr hs
  swap
  · unfold categorizeTransactionT
    rw [if_neg hc, if_neg (ne_true_of_eq_false hi),
      if_neg (ne_true_of_eq_false ht), if_neg (ne_true_of_eq_false hf),
      if_pos hs]
    repeat first | exact List.Mem.head _ | apply List.Mem.tail
  by_cases hg : anyKeyword (toLowerStr m) (toLowerStr d) groceryKeywords = true
  swap
  replace hg : anyKeyword (toLowerStr m) (toLowerStr d) groceryKeywords = false :=
    Bool.eq_false_iff.mpr hg
  swap
  · unfold categorizeTransactionT
    rw [if_neg hc, if_neg (ne_true_of_eq_false hi),
      if_neg (ne_true_of_eq_false ht), if_neg (ne_true_of_eq_false hf),
      if_neg (ne_true_of_eq_false hs), if_pos hg]
    repeat first | exact List.Mem.head _ | apply List.Mem.tail
  by_cases he : anyKeyword (toLowerStr m) (toLowerStr d) entertainmentKeywords = true
  swap
  replace he : anyKeyword (toLowerStr m) (toLowerStr d) entertainmentKeywords = false :=
    Bool.eq_false_iff.mpr he
  swap
  · unfold categorizeTransactionT
    rw [if_neg hc, if_neg (ne_true_of_eq_false hi),
      if_neg (ne_true_of_eq_false ht), if_neg (ne_true_of_eq_false hf),
      if_neg (ne_true_of_eq_false hs), if_neg (ne_true_of_eq_false hg),
      if_pos he]
    repeat first | exact List.Mem.head _ | apply List.Mem.tail
  by_cases hb : anyKeyword (toLowerStr m) (toLowerStr d) billsKeywords = true
  swap
  replace hb : anyKeyword (toLowerStr m) (toLowerStr d) billsKeywords = false :=
    Bool.eq_false_iff.mpr hb
  swap
  · unfold categorizeTransactionT
    rw [if_neg hc, if_neg (ne_true_of_eq_false hi),
      if_neg (ne_true_of_eq_false ht), if_neg (ne_true_of_eq_false hf),
      if_neg (ne_true_of_eq_false hs), if_neg (ne_true_of_eq_false hg),
      if_neg (ne_true_of_eq_false he), if_pos hb]
    repeat first | exact List.Mem.head _ | apply List.Mem.tail
  rw [catT_after_keywords 700 m d a t hc hi ht hf hs hg he hb]
  split
  · repeat first | exact List.Mem.head _ | apply List.Mem.tail
  split
  · split
    · exact List.Mem.head _
    split
    all_goals repeat first | exact List.Mem.head _ | apply List.Mem.tail
  · repeat first | exact List.Mem.head _ | apply List.Mem.tail

/-- C7: the categorizer is deterministic; equal inputs give equal
categories, and the embedding as a pure function carries the absence of
state. -/
theorem categorizer_deterministic
    (m1 d1 : List Char) (a1 : Rat) (t1 : List Char)
    (m2 d2 : List Char) (a2 : Rat) (t2 : List Char)
    (hm : m1 = m2) (hd : d1 = d2) (ha : a1 = a2) (ht : t1 = t2) :
    categorizeTransaction m1 d1 a1 t1 = categorizeTransaction m2 d2 a2 t2 := by
  rw [hm, hd, ha, ht]

/-- Witness for C7 at a concrete input. -/
theorem categorizer_deterministic_witness :
    categorizeTransaction (str "Tesco") (str "weekly") 20 (str "debit") =
      categorizeTransaction (str "Tesco") (str "weekly") 20 (str "debit") :=
  categorizer_deterministic (str "Tesco") (str "weekly") 20 (str "debit")
    (str "Tesco") (str "weekly") 20 (str "debit") rfl rfl rfl rfl

/-- C10: below or at the large-amount threshold of 700 the amount has no
influence: two non-credit inputs differing only in the amount get the
same category. -/
theorem amount_noninterference_below_threshold
    (m d t : List Char) (a1 a2 : Rat)
    (_hc : toLowerStr t ≠ str "credit")
    (h1 : a1 ≤ 700) (h2 : a2 ≤ 700) :
    categorizeTransaction m d a1 t = categorizeTransaction m d a2 t := by
  have n1 : ¬ (700 : Rat) < a1 := not_lt.mpr h1
  have n2 : ¬ (700 : Rat) < a2 := not_lt.mpr h2
  unfold categorizeTransaction categorizeTransactionT
  simp only [n1, n2, if_false]

/-- Witness for C10 at a concrete input. -/
theorem amount_noninterference_below_threshold_witness :
    categorizeTransaction (str "zz") (str "salary") 0 (str "debit") =
      categorizeTransaction (str "zz") (str "salary") 700 (str "debit") :=
  amount_noninterference_below_threshold (str "zz") (str "salary")
    (str "debit") 0 700 (by decide) (by decide) (by decide)

/-- C6: an input whose merchant or description contains "uber" in any
letter case is categorized "Transport", unless the type is credit or an
income keyword occurs, in which case the answer is "Income": the top of
the precedence ladder. -/
theorem uber_precedence (m d : List Char) (a : Rat) (t : List Char)
    (hu : (containsSub (toLowerStr m) (str "uber")
           || containsSub (toLowerStr d) (str "uber")) = true) :
    (toLowerStr t = str "credit" →
      categorizeTransaction m d a t = str "Income")
    ∧ (anyKeyword (toLowerStr m) (toLowerStr d) incomeKeywords = true →
      categorizeTransaction m d a t = str "Income")
    ∧ (toLowerStr t ≠ str "credit" →
      anyKeyword (toLowerStr m) (toLowerStr d) incomeKeywords = false →
      categorizeTransaction m d a t = str "Transport") := by
  refine ⟨fun hc => ?_, fun hi => ?_, fun hc hi => ?_⟩
  · exact catT_credit 700 m d a t hc
  · by_cases hc : toLowerStr t = str "credit"
    · exact catT_credit 700 m d a t hc
    · exact catT_income 700 m d a t hc hi
  · refine catT_transport 700 m d a t hc hi ?_
    unfold anyKeyword transportKeywords
    simp only [List.any_cons, Bool.or_eq_true]
    exact Or.inl ((Bool.or_eq_true _ _).mp hu)

/-- Witness for C6 at a concrete input. -/
theorem uber_precedence_witness :
    categorizeTransaction (str "UBER") (str "") 5 (str "debit")
      = str "Transport" :=
  (uber_precedence (str "UBER") (str "") 5 (str "debit") (by decide)).2.2
    (by decide) (by decide)

/-- C8: past every keyword rule, a merchant containing "atm" or "cash"
yields "ATM", and the description is not consulted: without a merchant
match the answer is never "ATM". -/
theorem atm_rule (m d : List Char) (a : Rat) (t : List Char)
    (hc : toLowerStr t ≠ str "credit")
    (hi : anyKeyword (toLowerStr m) (toLowerStr d) incomeKeywords = false)
    (ht : anyKeyword (toLowerStr m) (toLowerStr d) transportKeywords = false)
    (hf : anyKeyword (toLowerStr m) (toLowerStr d) foodKeywords = false)
    (hs : anyKeyword (toLowerStr m) (toLowerStr d) shoppingKeywords = false)
    (hg : anyKeyword (toLowerStr m) (toLowerStr d) groceryKeywords = false)
    (he : anyKeyword (toLowerStr m) (toLowerStr d) entertainmentKeywords
        = false)
    (hb : anyKeyword (toLowerStr m) (toLowerStr d) billsKeywords = false) :
    ((containsSub (toLowerStr m) (str "atm")
      || containsSub (toLowerStr m) (str "cash")) = true →
      categorizeTransaction m d a t = str "ATM")
    ∧ ((containsSub (toLowerStr m) (str "atm")
      || containsSub (toLowerStr m) (str "cash")) = false →
      categorizeTransaction m d a t ≠ str "ATM") := by
  unfold categorizeTransaction
  rw [catT_after_keywords 700 m d a t hc hi ht hf hs hg he hb]
  constructor
  · intro hm
    rw [if_pos hm]
  · intro hm
    rw [if_neg (ne_true_of_eq_false hm)]
    by_cases ha : (700 : Rat) < a
    · rw [if_pos ha]
      by_cases h1 : (containsSub (toLowerStr d) (str "salary")
          || containsSub (toLowerStr d) (str "wages")) = true
      · rw [if_pos h1]
        decide
      · rw [if_neg h1]
        by_cases h2 : (containsSub (toLowerStr d) (str "rent")
            || containsSub (toLowerStr d) (str "mortgage")) = true
        · rw [if_pos h2]
          decide
        · rw [if_neg h2]
          decide
    · rw [if_neg ha]
      decide

/-- Witness for C8 at a concrete input. -/
theorem atm_rule_witness :
    categorizeTransaction (str "City ATM") (str "") 20 (str "debit")
      = str "ATM" :=
  (atm_rule (str "City ATM") (str "") 20 (str "debit") (by decide)
    (by decide) (by decide) (by decide) (by decide) (by decide) (by decide)
    (by decide)).1 (by decide)

/-- C5: with the large-amount threshold taken as a configuration value
`T`, a non-credit input past every earlier rule is categorized "Income"
when the amount exceeds `T` and the description mentions salary or wages,
"Housing" when it instead mentions rent or mortgage, and "Other" whenever
the amount is at or below `T`. -/
theorem large_amount_heuristic (T : Rat) (m d : List Char) (a : Rat)
    (t : List Char)
    (hc : toLowerStr t ≠ str "credit")
    (hi : anyKeyword (toLowerStr m) (toLowerStr d) incomeKeywords = false)
    (ht : anyKeyword (toLowerStr m) (toLowerStr d) transportKeywords = false)
    (hf : anyKeyword (toLowerStr m) (toLowerStr d) foodKeywords = false)
    (hs : anyKeyword (toLowerStr m) (toLowerStr d) shoppingKeywords = false)
    (hg : anyKeyword (toLowerStr m) (toLowerStr d) groceryKeywords = false)
    (he : anyKeyword (toLowerStr m) (toLowerStr d) entertainmentKeywords
        = false)
    (hb : anyKeyword (toLowerStr m) (toLowerStr d) billsKeywords = false)
    (hm : (containsSub (toLowerStr m) (str "atm")
      || containsSub (toLowerStr m) (str "cash")) = false) :
    (T < a →
      ((containsSub (toLowerStr d) (str "salary")
        || containsSub (toLowerStr d) (str "wages")) = true →
        categorizeTransactionT T m d a t = str "Income")
      ∧ ((containsSub (toLowerStr d) (str "salary")
        || containsSub (toLowerStr d) (str "wages")) = false →
        (containsSub (toLowerStr d) (str "rent")
        || containsSub (toLowerStr d) (str "mortgage")) = true →
        categorizeTransactionT T m d a t = str "Housing"))
    ∧ (a ≤ T → categorizeTransactionT T m d a t = str "Other") := by
  rw [catT_after_keywords T m d a t hc hi ht hf hs hg he hb,
    if_neg (ne_true_of_eq_false hm)]
  constructor
  · intro ha
    rw [if_pos ha]
    constructor
    · intro h1
      rw [if_pos h1]
    · intro h1 h2
      rw [if_neg (ne_true_of_eq_false h1), if_pos h2]
  · intro ha
    rw [if_neg (not_lt.mpr ha)]

/-- Witness for C5 at a concrete input and threshold. -/
theorem large_amount_heuristic_witness :
    categorizeTransactionT 0 (str "zz") (str "wages") 1 (str "debit")
      = str "Income" :=
  ((large_amount_heuristic 0 (str "zz") (str "wages") 1 (str "debit")
    (by decide) (by decide) (by decide) (by decide) (by decide) (by decide)
    (by decide) (by decide) (by decide)).1 (by decide)).1 (by decide)

/-- Conservation of one evaluation pass: the post-pass balance equals the
pre-pass balance plus the amounts of the recorded topup events. -/
theorem evaluateTopUps_balance (rules : List TopUpRule) (b : Rat) :
    (evaluateTopUps rules b).1 =
      b + ((evaluateTopUps rules b).2.map TopUpEvent.amount).sum := by
  induction rules generalizing b with
  | nil => simp [evaluateTopUps]
  | cons r rest ih =>
    by_cases h : r.enabled = true ∧ b < r.threshold
    · simp only [evaluateTopUps, if_pos h, List.map_cons, List.sum_cons]
      rw [ih (b + r.topupAmount)]
      ring
    · simp only [evaluateTopUps, if_neg h]
      exact ih b

/-- One applied transaction moves the balance by its signed delta. -/
theorem applyDelta_eq (b : Rat) (ty : TxType) (amt : Rat) :
    applyDelta b ty amt = b + signedDelta ty amt := by
  cases ty <;> simp [applyDelta, signedDelta, sub_eq_add_neg]

/-- C2: rules fire in creation order against the running balance — a
firing head rule credits its amount before the remaining rules are
checked — and on the spec's two-rule scenario (thresholds 100 and 80,
amounts 50 and 30, balance 150, debit of 90) exactly one event is
recorded and the final balance is 110. -/
theorem topup_firing_order :
    (∀ (r : TopUpRule) (rest : List TopUpRule) (b : Rat),
      r.enabled = true → b < r.threshold →
      evaluateTopUps (r :: rest) b =
        ((evaluateTopUps rest (b + r.topupAmount)).1,
         ⟨r.topupAmount, b⟩ ::
           (evaluateTopUps rest (b + r.topupAmount)).2))
    ∧ submit 150 90 (str "shop") TxType.debit (some (str "Other"))
        [⟨100, 50, true⟩, ⟨80, 30, true⟩]
      = Except.ok (110, str "Other", [⟨50, 60⟩]) := by
  constructor
  · intro r rest b he hb
    simp only [evaluateTopUps, if_pos (And.intro he hb)]
  · norm_num [submit, evaluateTopUps, applyDelta, str]
    intro h
    exact absurd h (by simp)

/-- Witness for C2's ordering conjunct at a concrete rule and balance. -/
theorem topup_firing_order_witness :
    evaluateTopUps [(⟨100, 50, true⟩ : TopUpRule)] 60 =
      ((evaluateTopUps [] (60 + 50)).1,
       (⟨50, 60⟩ : TopUpEvent) :: (evaluateTopUps [] (60 + 50)).2) :=
  topup_firing_order.1 ⟨100, 50, true⟩ [] 60 (by decide) (by decide)

/-- C3: over any request sequence, the final balance is exactly the
initial balance plus the signed sum of the applied transaction deltas
plus the sum of all topup credits — rationals carry no rounding drift at
any sequence length. -/
theorem balance_conservation (rules : List TopUpRule) (b : Rat)
    (reqs : List TxReq) :
    (runPipeline rules b reqs).1 =
      b + ((runPipeline rules b reqs).2.1.map
            (fun p => signedDelta p.1 p.2)).sum
        + ((runPipeline rules b reqs).2.2.map TopUpEvent.amount).sum := by
  induction reqs generalizing b with
  | nil => simp [runPipeline]
  | cons req rest ih =>
    by_cases h1 : req.amount ≤ 0
    · simp only [runPipeline, submit, if_pos h1]
      exact ih b
    · by_cases h2 : req.merchant = []
      · simp only [runPipeline, submit, if_neg h1, if_pos h2]
        exact ih b
      · simp only [runPipeline, submit, if_neg h1, if_neg h2, List.map_cons,
          List.sum_cons, List.map_append, List.sum_append]
        rw [ih, evaluateTopUps_balance rules (applyDelta b req.ty req.amount),
          applyDelta_eq]
        ring

/-- C4: a failed or timed-out categorizer call never fails the submit:
the transaction commits with category "Other", and the balance moves
exactly as on the successful-call path. -/
theorem classifier_failure_not_fatal (b amt : Rat) (m : List Char)
    (ty : TxType) (rules : List TopUpRule) (c : List Char)
    (h1 : 0 < amt) (h2 : m ≠ []) :
    submit b amt m ty none rules =
      Except.ok ((evaluateTopUps rules (applyDelta b ty amt)).1,
        str "Other", (evaluateTopUps rules (applyDelta b ty amt)).2)
    ∧ submit b amt m ty (some c) rules =
      Except.ok ((evaluateTopUps rules (applyDelta b ty amt)).1, c,
        (evaluateTopUps rules (applyDelta b ty amt)).2) := by
  have hn : ¬ amt ≤ 0 := not_le.mpr h1
  constructor <;> simp [submit, hn, h2]

/-- Witness for C4 at a concrete input. -/
theorem classifier_failure_not_fatal_witness :
    submit 0 1 (str "corner shop") TxType.debit none [] =
      Except.ok ((evaluateTopUps [] (applyDelta 0 TxType.debit 1)).1,
        str "Other", (evaluateTopUps [] (applyDelta 0 TxType.debit 1)).2)
    ∧ submit 0 1 (str "corner shop") TxType.debit (some (str "Shopping")) [] =
      Except.ok ((evaluateTopUps [] (applyDelta 0 TxType.debit 1)).1,
        str "Shopping", (evaluateTopUps [] (applyDelta 0 TxType.debit 1)).2) :=
  classifier_failure_not_fatal 0 1 (str "corner shop") TxType.debit []
    (str "Shopping") (by decide) (by decide)
